import Mathlib

/-!
# libadblockplus: the GET bridge of `WebRequestJsObject.cpp` and the preference store

The first part embeds `src/WebRequestJsObject.cpp`: the constructor of
`WebRequestThread`, `NotAllowedResponse`, `Run` and `GETCallback`. The script
values the code handles (`AdblockPlus::JsValue`) are declared in a header that
is not among the sources, so they are modelled as an inductive type with the
observations the code makes of them.

The second part models the preference store exercised by `test/Prefs.cpp`.
-/

namespace AdblockPlus

/-! ## Script values -/

/-- Modelled from the spec: `AdblockPlus::JsValue` (declared in `AdblockPlus/JsValue.h`, which is
not among the sources). A script value is a tagged union. A script number is a double; the model
carries the integral ones by their value, and a native integer handed to the script becomes the
nearest double (`int64ToNumber`). An object
or function carries the string its coercion to string yields (script decides it: `[]` coerces to
the empty string, a plain object to `[object Object]`) and its own properties in the order the
engine enumerates them. -/
inductive JsValue where
  | undefined : JsValue
  | null : JsValue
  | bool (b : Bool) : JsValue
  | number (n : Int) : JsValue
  | string (s : String) : JsValue
  | object (str : String) (props : List (String × JsValue)) : JsValue
  | function (str : String) (props : List (String × JsValue)) : JsValue

namespace JsValue

/-- Modelled from the spec: `JsValue::AsString`, the coercion of a script value to a string. -/
def AsString : JsValue → String
  | undefined => "undefined"
  | null => "null"
  | bool true => "true"
  | bool false => "false"
  | number n => toString n
  | string s => s
  | object str _ => str
  | function str _ => str

/-- Modelled from the spec: `JsValue::IsString`. -/
def IsString : JsValue → Bool
  | string _ => true
  | _ => false

/-- Modelled from the spec: `JsValue::IsBool`. -/
def IsBool : JsValue → Bool
  | bool _ => true
  | _ => false

/-- Modelled from the spec: `JsValue::IsNumber`. -/
def IsNumber : JsValue → Bool
  | number _ => true
  | _ => false

/-- Modelled from the spec: `JsValue::IsObject`; a function is an object too. -/
def IsObject : JsValue → Bool
  | object _ _ => true
  | function _ _ => true
  | _ => false

/-- Modelled from the spec: `JsValue::IsFunction`. -/
def IsFunction : JsValue → Bool
  | function _ _ => true
  | _ => false

/-- The own properties of a value; a value that is no object has none. -/
def ownProperties : JsValue → List (String × JsValue)
  | object _ props => props
  | function _ props => props
  | _ => []

end JsValue

/-- First value stored under `name` in a property list. -/
def lookupProp (name : String) : List (String × JsValue) → Option JsValue
  | [] => none
  | (k, v) :: rest => if k = name then some v else lookupProp name rest

/-- Write `name := value` into a property list: an existing entry is overwritten in place,
a new one is appended. -/
def setProp (name : String) (value : JsValue) : List (String × JsValue) → List (String × JsValue)
  | [] => [(name, value)]
  | (k, v) :: rest => if k = name then (k, value) :: rest else (k, v) :: setProp name value rest

namespace JsValue

/-- Modelled from the spec: `JsValue::GetOwnPropertyNames`, the own property names in the
engine's enumeration order. -/
def GetOwnPropertyNames (v : JsValue) : List String :=
  v.ownProperties.map Prod.fst

/-- Modelled from the spec: `JsValue::GetProperty`; a missing property reads as `undefined`. -/
def GetProperty (v : JsValue) (name : String) : JsValue :=
  (lookupProp name v.ownProperties).getD undefined

/-- Modelled from the spec: `JsValue::SetProperty`, writing a property of an object (a later
write to the same name overwrites the earlier one). -/
def SetProperty : JsValue → String → JsValue → JsValue
  | object str props, name, value => object str (setProp name value props)
  | function str props, name, value => function str (setProp name value props)
  | v, _, _ => v

end JsValue

/-- Modelled from the spec: `JsEngine::NewObject`, a fresh object without properties. -/
def NewObject : JsValue := JsValue.object "[object Object]" []

/-! ## `WebRequestJsObject.cpp` -/

/-- The type `AdblockPlus::HeaderList`: pairs of name and value. -/
abbrev HeaderList := List (String × String)

/-- The type `AdblockPlus::ServerResponse`: `status` is a 64-bit integer, `responseStatus` an
`int`. -/
structure ServerResponse where
  status : Int
  responseHeaders : HeaderList
  responseStatus : Int
  responseText : String

/-- The HTTP requester `AdblockPlus::WebRequest`, declared in a header that is not among the
sources: its method `GET` is a parameter. -/
structure WebRequest where
  GET : String → HeaderList → ServerResponse

/-- Modelled from the spec: the constant `AdblockPlus::WebRequest::NS_ERROR_CONNECTION_REFUSED`,
the transport status "connection refused"; `AdblockPlus/WebRequest.h`, which declares it, is not
among the sources, its value there is 0x804b000d. -/
def WebRequest.NS_ERROR_CONNECTION_REFUSED : Int := 0x804b000d

/-- The number of low bits of `m` that do not fit the 53 bits of the significand of a double
(`fuel` bounds the count; 64 is enough for a 64-bit value). -/
def excessBits : Nat → Nat → Nat
  | 0, _ => 0
  | fuel + 1, m => if m < 2 ^ 53 then 0 else excessBits fuel (m / 2) + 1

/-- The double nearest to the natural number `m` (below 2^64), ties to the even significand. -/
def roundToDouble (m : Nat) : Nat :=
  let e := excessBits 64 m
  let q := m / 2 ^ e
  let r := m % 2 ^ e
  if 2 ^ e < 2 * r ∨ (2 * r = 2 ^ e ∧ q % 2 = 1) then (q + 1) * 2 ^ e else q * 2 ^ e

/-- Modelled from the spec: the script number that `JsValue::SetProperty` makes of a 64-bit
integer (line 73): the conversion of the integer to a double, which rounds to the nearest
double. The result is given by its value, an integer. -/
def int64ToNumber (n : Int) : Int :=
  if n < 0 then -(roundToDouble n.natAbs : Int) else (roundToDouble n.natAbs : Int)

/-- The part of `AdblockPlus::JsEngine` that `Run` consults: the answer of the
connection-allowed check and the requester. -/
structure JsEngine where
  IsConnectionAllowed : Bool
  GetWebRequest : WebRequest

/-- The data members of `WebRequestThread` (the engine is passed to `Run`). -/
structure WebRequestThread where
  url : String
  headers : HeaderList
  callback : JsValue

/-- The loop of the constructor of `WebRequestThread` over the own property names of the
headers object (lines 44-50). -/
def collectHeaders (headersObj : JsValue) : HeaderList :=
  headersObj.GetOwnPropertyNames.foldl
    (fun headers header =>
      let headerValue := (headersObj.GetProperty header).AsString
      if header.length != 0 && headerValue.length != 0 then
        headers ++ [(header, headerValue)]
      else headers)
    []

/-- The constructor `WebRequestThread::WebRequestThread` (lines 32-55); `arguments` has three
elements when `GETCallback` calls it. A thrown `std::runtime_error` is the error with its
message. -/
def WebRequestThread.new (arguments : List JsValue) : Except String WebRequestThread :=
  let url := (arguments.getD 0 JsValue.undefined).AsString
  let callback := arguments.getD 2 JsValue.undefined
  if url.length == 0 then
    Except.error "Invalid string passed as first argument to GET"
  else
    let headersObj := arguments.getD 1 JsValue.undefined
    if !headersObj.IsObject then
      Except.error "Second argument to GET must be an object"
    else
      let headers := collectHeaders headersObj
      if !callback.IsFunction then
        Except.error "Third argument to GET must be a function"
      else
        Except.ok { url := url, headers := headers, callback := callback }

/-- What a run of the thread does to the outside: calls of the requester and calls of a
script function. -/
inductive Event where
  | webRequestGET (url : String) (headers : HeaderList) : Event
  | call (callback : JsValue) (params : List JsValue) : Event

/-- The method `WebRequestThread::NotAllowedResponse` (lines 57-63); the header list and the
text of a default-constructed response are empty. -/
def WebRequestThread.NotAllowedResponse : ServerResponse :=
  { status := WebRequest.NS_ERROR_CONNECTION_REFUSED
    responseHeaders := []
    responseStatus := 0
    responseText := "" }

/-- The method `WebRequestThread::Run` (lines 65-87), returning the events in order. The 64-bit
`status` becomes a script number by `int64ToNumber`; `responseStatus` is an `int`, which every
script number holds exactly. -/
def WebRequestThread.Run (jsEngine : JsEngine) (t : WebRequestThread) : List Event :=
  let fetched : ServerResponse × List Event :=
    if jsEngine.IsConnectionAllowed then
      (jsEngine.GetWebRequest.GET t.url t.headers, [Event.webRequestGET t.url t.headers])
    else
      (WebRequestThread.NotAllowedResponse, [])
  let result := fetched.1
  let resultObject := NewObject
  let resultObject :=
    resultObject.SetProperty "status" (JsValue.number (int64ToNumber result.status))
  let resultObject := resultObject.SetProperty "responseStatus" (JsValue.number result.responseStatus)
  let resultObject := resultObject.SetProperty "responseText" (JsValue.string result.responseText)
  let headersObject := result.responseHeaders.foldl
    (fun headersObject header => headersObject.SetProperty header.1 (JsValue.string header.2))
    NewObject
  let resultObject := resultObject.SetProperty "responseHeaders" headersObject
  let params : List JsValue := [] ++ [resultObject]
  fetched.2 ++ [Event.call t.callback params]

/-- What a call of the script function `GET` leaves behind: the value handed back to the
engine (an error is the exception scheduled by `v8::ThrowException`, with its text) and the
threads it started. -/
structure GETOutcome where
  returned : Except String JsValue
  started : List WebRequestThread

/-- The function `GETCallback` (lines 96-115). -/
def GETCallback (arguments : List JsValue) : GETOutcome :=
  let converted := arguments
  let constructed : Except String WebRequestThread :=
    if converted.length != 3 then
      Except.error "GET requires exactly 3 arguments"
    else
      WebRequestThread.new converted
  match constructed with
  | Except.error what => { returned := Except.error what, started := [] }
  | Except.ok thread => { returned := Except.ok JsValue.undefined, started := [thread] }

/-- Every event of a call of `GET`: the call itself produces none, and each thread it started
runs to its end. -/
def GETEvents (jsEngine : JsEngine) (arguments : List JsValue) : List Event :=
  (GETCallback arguments).started.flatMap (WebRequestThread.Run jsEngine)

/-- Whether an event is the invocation of a script function. -/
def Event.isCall : Event → Bool
  | Event.call _ _ => true
  | _ => false

/-- The object `Run` builds from a response and hands to the callback. -/
def resultObjectOf (result : ServerResponse) : JsValue :=
  JsValue.object "[object Object]"
    [("status", JsValue.number (int64ToNumber result.status)),
     ("responseStatus", JsValue.number result.responseStatus),
     ("responseText", JsValue.string result.responseText),
     ("responseHeaders", JsValue.object "[object Object]"
        (result.responseHeaders.foldl
          (fun ps header => setProp header.1 (JsValue.string header.2) ps) []))]

/-- The value of the last pair of a list of (name, value) pairs that carries `name`. -/
def lastValue {α : Type} (name : String) (entries : List (String × α)) : Option α :=
  ((entries.filter (fun entry => entry.1 = name)).getLast?).map Prod.snd

/-! ## The preference store -/

/-- Modelled from the spec: the declared type of a recognized preference, one of bool, number
and string (section 3, "Preference entry"). -/
inductive PrefType where
  | bool : PrefType
  | number : PrefType
  | string : PrefType
  deriving DecidableEq

/-- Modelled from the spec: whether a script value is of a declared type. -/
def JsValue.hasType (value : JsValue) : PrefType → Bool
  | PrefType.bool => value.IsBool
  | PrefType.number => value.IsNumber
  | PrefType.string => value.IsString

/-- Modelled from the spec: a recognized preference key, "a preference name with a built-in
default and declared type". The table of the recognized keys is not among the sources and is a
parameter of the store. -/
structure PrefDecl where
  key : String
  type : PrefType
  default : JsValue

/-- The declaration of `key` in a table of recognized keys, if it is recognized. -/
def findDecl (key : String) : List PrefDecl → Option PrefDecl
  | [] => none
  | d :: rest => if d.key = key then some d else findDecl key rest

/-- Modelled from the spec: the preference store behind `FilterEngine::GetPref` and
`FilterEngine::SetPref` (section 4.3; the implementation is not among the sources, only its test
`test/Prefs.cpp` is): the recognized keys and the current mapping from key to value. -/
structure FilterEngine where
  recognized : List PrefDecl
  values : List (String × JsValue)

/-- Modelled from the spec: the type `FilterEngine::Prefs` of the preconfigured preferences, a
mapping from key to value, given as its entries (a later entry for a key replaces an earlier
one). -/
abbrev FilterEngine.Prefs := List (String × JsValue)

/-- Modelled from the spec: `get(key)` gives the value or the undefined sentinel if the key is
unknown. -/
def FilterEngine.GetPref (filterEngine : FilterEngine) (key : String) : JsValue :=
  (lookupProp key filterEngine.values).getD JsValue.undefined

/-- Modelled from the spec: `set(key, value)` "validates the value's type against an expected
type for known keys, fails (exception visible to caller) if the type does not match the key's
declared type; unknown keys may be set without type checking". The result is the store after
the call and whether the call threw. -/
def FilterEngine.SetPref (filterEngine : FilterEngine) (key : String) (value : JsValue) :
    FilterEngine × Except String Unit :=
  match findDecl key filterEngine.recognized with
  | some decl =>
    if value.hasType decl.type then
      ({ filterEngine with values := setProp key value filterEngine.values }, Except.ok ())
    else
      (filterEngine, Except.error "TypeMismatchError")
  | none =>
    ({ filterEngine with values := setProp key value filterEngine.values }, Except.ok ())

/-- Modelled from the spec: writing the entries of a mapping over the current values, "only for
keys present in the recognized default set"; other entries are no-ops. -/
def applyRecognized (recognized : List PrefDecl) (entries : List (String × JsValue))
    (values : List (String × JsValue)) : List (String × JsValue) :=
  entries.foldl
    (fun current entry =>
      if (findDecl entry.1 recognized).isSome then setProp entry.1 entry.2 current else current)
    values

/-- Modelled from the spec: the initialization of the store behind `FilterEngine::Create`
(section 4.3, steps a to d). `persisted` is the content of the persisted storage if it is
present; `parse` reads a document as its entries and gives nothing for a malformed one (the
parser is the script engine's, a parameter here).
(a) the built-in defaults of all recognized keys; (b) the preconfigured overrides, for
recognized keys only; (c) the persisted document, overwriting both; (d) a malformed document
skips the load step entirely. -/
def FilterEngine.Create (recognized : List PrefDecl) (preconfiguredPrefs : FilterEngine.Prefs)
    (persisted : Option String) (parse : String → Option (List (String × JsValue))) :
    FilterEngine :=
  let defaults := recognized.map (fun decl => (decl.key, decl.default))
  let preconfigured := applyRecognized recognized preconfiguredPrefs defaults
  let loaded :=
    match persisted with
    | none => preconfigured
    | some content =>
      match parse content with
      | none => preconfigured
      | some document => applyRecognized recognized document preconfigured
  { recognized := recognized, values := loaded }

/-- The three recognized keys whose defaults `TEST_F(PrefsTest, PrefsGetSet)` asserts
(`test/Prefs.cpp`, lines 101-103). -/
def testedPrefs : List PrefDecl :=
  [{ key := "patternsfile", type := PrefType.string, default := JsValue.string "patterns.ini" },
   { key := "patternsbackupinterval", type := PrefType.number, default := JsValue.number 24 },
   { key := "subscriptions_autoupdate", type := PrefType.bool, default := JsValue.bool true }]

/-- The persisted document of `TEST_F(PrefsTest, UnknownPrefs)` (`test/Prefs.cpp`, line 146). -/
def unknownPrefsContents : String :=
  "\x7b\"foobar\":2, \"patternsbackupinterval\": 12\x7d"

/-- The persisted document of `TEST_F(PrefsTest, SyntaxFailure)` (`test/Prefs.cpp`, line 154). -/
def syntaxFailureContents : String :=
  "\x7b\"patternsbackupinterval\": 6, \"foo\"\x7d"

/-- The two documents of `test/Prefs.cpp` as a reader of the persisted format sees them: the
one of `UnknownPrefs` (line 146) is well-formed, the one of `SyntaxFailure` (line 154) and
every other text are rejected. -/
def testedParse (content : String) : Option (List (String × JsValue)) :=
  if content = unknownPrefsContents then
    some [("foobar", JsValue.number 2), ("patternsbackupinterval", JsValue.number 12)]
  else none

/-! ## Sample inputs -/

/-- An engine whose requester answers every request with status 0, HTTP status 200, the text
`ok` and three headers, two of them of the same name. -/
def sampleEngine (allowed : Bool) : JsEngine :=
  { IsConnectionAllowed := allowed
    GetWebRequest :=
      { GET := fun _ _ =>
          { status := 0
            responseHeaders := [("Foo", "1"), ("Bar", "2"), ("Foo", "3")]
            responseStatus := 200
            responseText := "ok" } } }

/-- An engine that allows connections and whose requester answers with the status 2^53 + 1. -/
def largeStatusEngine : JsEngine :=
  { IsConnectionAllowed := true
    GetWebRequest :=
      { GET := fun _ _ =>
          { status := 9007199254740993
            responseHeaders := []
            responseStatus := 200
            responseText := "" } } }

/-- A script function. -/
def sampleCallback : JsValue := JsValue.function "function () \x7b\x7d" []

/-- A headers object with three properties, one of them with an empty value. -/
def sampleHeaders : JsValue :=
  JsValue.object "[object Object]"
    [("Accept", JsValue.string "text/plain"), ("X-Empty", JsValue.string ""),
     ("X-Count", JsValue.number 7)]

/-- A well-formed argument list of `GET`. -/
def sampleArguments : List JsValue :=
  [JsValue.string "http://example.com/", sampleHeaders, sampleCallback]

/-- The thread `GET` starts for `sampleArguments`. -/
def sampleThread : WebRequestThread :=
  { url := "http://example.com/"
    headers := [("Accept", "text/plain"), ("X-Count", "7")]
    callback := sampleCallback }

/-! ## Lemmas on property lists -/

theorem string_length_eq_zero (s : String) : s.length = 0 ↔ s = "" := by
  constructor
  · intro h
    cases s with
    | mk data =>
      have hd : data = [] := List.length_eq_zero.mp h
      subst hd
      rfl
  · intro h
    subst h
    rfl

theorem lookupProp_setProp (name other : String) (value : JsValue)
    (props : List (String × JsValue)) :
    lookupProp other (setProp name value props)
      = if name = other then some value else lookupProp other props := by
  induction props with
  | nil => simp [setProp, lookupProp]
  | cons p rest ih =>
    obtain ⟨k, v⟩ := p
    by_cases hk : k = name
    · subst hk
      by_cases ho : k = other <;> simp [setProp, lookupProp, ho]
    · by_cases ho : k = other
      · subst ho
        have hk2 : ¬ name = k := fun h => hk h.symm
        simp [setProp, lookupProp, hk, hk2]
      · simp [setProp, lookupProp, hk, ho, ih]

theorem mem_names_setProp (name other : String) (value : JsValue)
    (props : List (String × JsValue)) :
    other ∈ (setProp name value props).map Prod.fst
      ↔ other = name ∨ other ∈ props.map Prod.fst := by
  induction props with
  | nil => simp [setProp]
  | cons p rest ih =>
    obtain ⟨k, v⟩ := p
    by_cases hk : k = name
    · subst hk
      simp [setProp]
    · simp only [setProp, hk, if_false, List.map_cons, List.mem_cons, ih]
      tauto

/-! ## Lemmas on `GETCallback` -/

theorem collectHeaders_step (headersObj : JsValue) (names : List String) (acc : HeaderList) :
    names.foldl
      (fun headers header =>
        let headerValue := (headersObj.GetProperty header).AsString
        if header.length != 0 && headerValue.length != 0 then
          headers ++ [(header, headerValue)]
        else headers)
      acc
    = acc ++ (names.map (fun name => (name, (headersObj.GetProperty name).AsString))).filter
        (fun p => decide (p.1 ≠ "") && decide (p.2 ≠ "")) := by
  induction names generalizing acc with
  | nil => simp
  | cons name rest ih =>
    simp only [List.foldl_cons, List.map_cons, ih]
    by_cases h1 : name = ""
    · subst h1
      simp [List.filter_cons]
    · by_cases h2 : (headersObj.GetProperty name).AsString = ""
      · simp [List.filter_cons, h2]
      · have l1 : name.length ≠ 0 := fun h => h1 ((string_length_eq_zero _).mp h)
        have l2 : (headersObj.GetProperty name).AsString.length ≠ 0 :=
          fun h => h2 ((string_length_eq_zero _).mp h)
        simp [List.filter_cons, h1, h2, l1, l2]

theorem collectHeaders_eq (headersObj : JsValue) :
    collectHeaders headersObj
      = (headersObj.GetOwnPropertyNames.map
          (fun name => (name, (headersObj.GetProperty name).AsString))).filter
          (fun p => decide (p.1 ≠ "") && decide (p.2 ≠ "")) := by
  unfold collectHeaders
  rw [collectHeaders_step]
  simp

/-- What `GETCallback` does with three arguments, by the three checks of the constructor. -/
theorem GETCallback_three (a b c : JsValue) :
    GETCallback [a, b, c]
      = if a.AsString = "" then
          { returned := Except.error "Invalid string passed as first argument to GET", started := [] }
        else if b.IsObject = false then
          { returned := Except.error "Second argument to GET must be an object", started := [] }
        else if c.IsFunction = false then
          { returned := Except.error "Third argument to GET must be a function", started := [] }
        else
          { returned := Except.ok JsValue.undefined
            started := [{ url := a.AsString, headers := collectHeaders b, callback := c }] } := by
  by_cases h1 : a.AsString = ""
  · simp [GETCallback, WebRequestThread.new, h1]
  · have l1 : a.AsString.length ≠ 0 := fun h => h1 ((string_length_eq_zero _).mp h)
    by_cases h2 : b.IsObject = false
    · simp [GETCallback, WebRequestThread.new, h1, l1, h2]
    · by_cases h3 : c.IsFunction = false
      · simp [GETCallback, WebRequestThread.new, h1, l1, h2, h3]
      · simp [GETCallback, WebRequestThread.new, h1, l1, h2, h3]

/-- A call with another number of arguments than three throws. -/
theorem GETCallback_count (arguments : List JsValue) (h : arguments.length ≠ 3) :
    GETCallback arguments
      = { returned := Except.error "GET requires exactly 3 arguments", started := [] } := by
  simp [GETCallback, h]

theorem length_three (arguments : List JsValue) (h : arguments.length = 3) :
    ∃ a b c, arguments = [a, b, c] := by
  match arguments, h with
  | [a, b, c], _ => exact ⟨a, b, c, rfl⟩

/-- A started thread comes from three arguments that passed the three checks. -/
theorem GETCallback_started (arguments : List JsValue) (thread : WebRequestThread)
    (h : (GETCallback arguments).started = [thread]) :
    ∃ a b c, arguments = [a, b, c] ∧ a.AsString ≠ "" ∧ b.IsObject = true ∧ c.IsFunction = true
      ∧ thread = { url := a.AsString, headers := collectHeaders b, callback := c } := by
  by_cases hlen : arguments.length = 3
  · obtain ⟨a, b, c, rfl⟩ := length_three arguments hlen
    refine ⟨a, b, c, rfl, ?_⟩
    rw [GETCallback_three] at h
    by_cases h1 : a.AsString = ""
    · simp [h1] at h
    · by_cases h2 : b.IsObject = false
      · simp [h1, h2] at h
      · by_cases h3 : c.IsFunction = false
        · simp [h1, h2, h3] at h
        · simp [h1, h2, h3] at h
          refine ⟨h1, by simpa using h2, by simpa using h3, h.symm⟩
  · rw [GETCallback_count arguments hlen] at h
    simp at h

/-! ## Lemmas on `Run` -/

theorem lastValue_nil {α : Type} (name : String) :
    lastValue name ([] : List (String × α)) = none := rfl

theorem lastValue_cons {α : Type} (name k : String) (v : α) (rest : List (String × α)) :
    lastValue name ((k, v) :: rest)
      = match lastValue name rest with
        | some w => some w
        | none => if k = name then some v else none := by
  unfold lastValue
  by_cases hk : k = name
  · simp only [List.filter_cons, hk, decide_True, if_true, List.getLast?_cons]
    cases (List.filter (fun entry => decide (entry.1 = name)) rest).getLast? <;> simp
  · have hf : List.filter (fun entry : String × α => decide (entry.1 = name)) ((k, v) :: rest)
        = List.filter (fun entry => decide (entry.1 = name)) rest := by
      simp [List.filter_cons, hk]
    rw [hf]
    cases (List.filter (fun entry : String × α => decide (entry.1 = name)) rest).getLast? with
    | none => simp [hk]
    | some x => rfl

theorem lastValue_isSome_iff {α : Type} (name : String) (entries : List (String × α)) :
    (∃ v, lastValue name entries = some v) ↔ name ∈ entries.map Prod.fst := by
  induction entries with
  | nil => simp [lastValue_nil]
  | cons e rest ih =>
    obtain ⟨k, v⟩ := e
    rw [lastValue_cons]
    simp only [List.map_cons, List.mem_cons, ← ih]
    cases hl : lastValue name rest with
    | some w => simp
    | none =>
      by_cases hk : k = name
      · simp [hk]
      · have hk2 : ¬ name = k := fun h => hk h.symm
        simp [hk, hk2]

theorem SetProperty_object (str name : String) (value : JsValue)
    (props : List (String × JsValue)) :
    (JsValue.object str props).SetProperty name value
      = JsValue.object str (setProp name value props) := rfl

/-- Writing the pairs of a header list one after the other into an object. -/
theorem foldl_SetProperty_object (str : String) (headers : HeaderList)
    (props : List (String × JsValue)) :
    headers.foldl
      (fun headersObject header => headersObject.SetProperty header.1 (JsValue.string header.2))
      (JsValue.object str props)
    = JsValue.object str
        (headers.foldl (fun ps header => setProp header.1 (JsValue.string header.2) ps) props) := by
  induction headers generalizing props with
  | nil => rfl
  | cons h rest ih =>
    simp only [List.foldl_cons, SetProperty_object]
    exact ih _

theorem lookupProp_foldl_setProp (name : String) (headers : HeaderList)
    (props : List (String × JsValue)) :
    lookupProp name
        (headers.foldl (fun ps header => setProp header.1 (JsValue.string header.2) ps) props)
      = match lastValue name headers with
        | some value => some (JsValue.string value)
        | none => lookupProp name props := by
  induction headers generalizing props with
  | nil => simp [lastValue_nil]
  | cons h rest ih =>
    obtain ⟨k, v⟩ := h
    simp only [List.foldl_cons, ih, lastValue_cons, lookupProp_setProp]
    cases lastValue name rest with
    | some w => rfl
    | none => by_cases hk : k = name <;> simp [hk]

theorem mem_names_foldl_setProp (name : String) (headers : HeaderList)
    (props : List (String × JsValue)) :
    name ∈ (headers.foldl (fun ps header => setProp header.1 (JsValue.string header.2) ps)
        props).map Prod.fst
      ↔ name ∈ headers.map Prod.fst ∨ name ∈ props.map Prod.fst := by
  induction headers generalizing props with
  | nil => simp
  | cons h rest ih =>
    simp only [List.foldl_cons, ih, mem_names_setProp, List.map_cons, List.mem_cons]
    tauto

theorem excessBits_small (fuel m : Nat) (h : m < 2 ^ 53) : excessBits fuel m = 0 := by
  cases fuel with
  | zero => rfl
  | succ k =>
    unfold excessBits
    rw [if_pos h]

theorem roundToDouble_small (m : Nat) (h : m < 2 ^ 53) : roundToDouble m = m := by
  unfold roundToDouble
  simp only [excessBits_small 64 m h, pow_zero, Nat.div_one, Nat.mod_one, Nat.mul_zero,
    Nat.mul_one]
  simp

theorem roundToDouble_exact (m : Nat) (h : m ≤ 2 ^ 53) : roundToDouble m = m := by
  rcases Nat.lt_or_ge m (2 ^ 53) with hlt | hge
  · exact roundToDouble_small m hlt
  · have hm : m = 2 ^ 53 := Nat.le_antisymm h hge
    subst hm
    rfl

/-- A 64-bit integer of absolute value at most 2^53 is handed to the script unchanged. -/
theorem int64ToNumber_exact (n : Int) (hlow : -(2 ^ 53) ≤ n) (hhigh : n ≤ 2 ^ 53) :
    int64ToNumber n = n := by
  have hm : n.natAbs ≤ 2 ^ 53 := by omega
  unfold int64ToNumber
  rw [roundToDouble_exact n.natAbs hm]
  split <;> omega

theorem int64ToNumber_connection_refused :
    int64ToNumber WebRequest.NS_ERROR_CONNECTION_REFUSED
      = WebRequest.NS_ERROR_CONNECTION_REFUSED :=
  int64ToNumber_exact _ (by decide) (by decide)

theorem Run_eq (jsEngine : JsEngine) (t : WebRequestThread) :
    WebRequestThread.Run jsEngine t
      = if jsEngine.IsConnectionAllowed then
          [Event.webRequestGET t.url t.headers,
           Event.call t.callback [resultObjectOf (jsEngine.GetWebRequest.GET t.url t.headers)]]
        else
          [Event.call t.callback [resultObjectOf WebRequestThread.NotAllowedResponse]] := by
  unfold WebRequestThread.Run resultObjectOf
  cases hallowed : jsEngine.IsConnectionAllowed
  · simp [NewObject, SetProperty_object, setProp, foldl_SetProperty_object,
      WebRequestThread.NotAllowedResponse]
  · simp [NewObject, SetProperty_object, setProp, foldl_SetProperty_object]

theorem resultObjectOf_fields (result : ServerResponse) :
    (resultObjectOf result).GetProperty "status" = JsValue.number (int64ToNumber result.status)
    ∧ (resultObjectOf result).GetProperty "responseStatus" = JsValue.number result.responseStatus
    ∧ (resultObjectOf result).GetProperty "responseText" = JsValue.string result.responseText
    ∧ (resultObjectOf result).GetProperty "responseHeaders"
        = JsValue.object "[object Object]"
            (result.responseHeaders.foldl
              (fun ps header => setProp header.1 (JsValue.string header.2) ps) []) := by
  refine ⟨?_, ?_, ?_, ?_⟩ <;>
    simp [resultObjectOf, JsValue.GetProperty, JsValue.ownProperties, lookupProp]

/-! ## Lemmas on the preference store -/

theorem lookupProp_defaults (key : String) (recognized : List PrefDecl) :
    lookupProp key (recognized.map (fun decl => (decl.key, decl.default)))
      = (findDecl key recognized).map PrefDecl.default := by
  induction recognized with
  | nil => rfl
  | cons d rest ih =>
    by_cases hk : d.key = key <;> simp [lookupProp, findDecl, hk, ih]

theorem lookupProp_applyRecognized (recognized : List PrefDecl) (key : String)
    (entries values : List (String × JsValue)) :
    lookupProp key (applyRecognized recognized entries values)
      = if (findDecl key recognized).isSome then
          match lastValue key entries with
          | some value => some value
          | none => lookupProp key values
        else lookupProp key values := by
  unfold applyRecognized
  induction entries generalizing values with
  | nil => simp [lastValue_nil]
  | cons e rest ih =>
    obtain ⟨k, v⟩ := e
    simp only [List.foldl_cons, ih, lastValue_cons]
    by_cases hrec : (findDecl key recognized).isSome = true
    · simp only [hrec, if_true]
      cases lastValue key rest with
      | some w => rfl
      | none =>
        by_cases hk : k = key
        · subst hk
          simp [hrec, lookupProp_setProp]
        · by_cases hrk : (findDecl k recognized).isSome = true
          · simp [hrk, hk, lookupProp_setProp]
          · simp [hrk, hk]
    · simp only [hrec, if_false]
      by_cases hrk : (findDecl k recognized).isSome = true
      · have hk : ¬ k = key := by
          intro h
          subst h
          exact hrec hrk
        simp [hrk, hk, lookupProp_setProp]
      · simp [hrk]

/-- The value a freshly created store gives for a recognized key. -/
theorem Create_recognized (recognized : List PrefDecl) (preconfiguredPrefs : FilterEngine.Prefs)
    (persisted : Option String) (parse : String → Option (List (String × JsValue)))
    (key : String) (decl : PrefDecl) (hkey : findDecl key recognized = some decl) :
    (FilterEngine.Create recognized preconfiguredPrefs persisted parse).GetPref key
      = match (persisted.bind parse).bind (lastValue key) with
        | some value => value
        | none =>
          match lastValue key preconfiguredPrefs with
          | some value => value
          | none => decl.default := by
  unfold FilterEngine.Create FilterEngine.GetPref
  cases persisted with
  | none =>
    simp only [Option.bind, lookupProp_applyRecognized, lookupProp_defaults, hkey]
    cases lastValue key preconfiguredPrefs <;> simp
  | some content =>
    cases hp : parse content with
    | none =>
      simp only [Option.bind, hp, lookupProp_applyRecognized, lookupProp_defaults, hkey]
      cases lastValue key preconfiguredPrefs <;> simp
    | some document =>
      simp only [Option.bind, hp, lookupProp_applyRecognized, lookupProp_defaults, hkey]
      cases lastValue key document with
      | some w => simp
      | none => cases lastValue key preconfiguredPrefs <;> simp

/-- The value a freshly created store gives for a key that is not recognized. -/
theorem Create_unrecognized (recognized : List PrefDecl) (preconfiguredPrefs : FilterEngine.Prefs)
    (persisted : Option String) (parse : String → Option (List (String × JsValue)))
    (key : String) (hkey : findDecl key recognized = none) :
    (FilterEngine.Create recognized preconfiguredPrefs persisted parse).GetPref key
      = JsValue.undefined := by
  unfold FilterEngine.Create FilterEngine.GetPref
  cases persisted with
  | none => simp [lookupProp_applyRecognized, lookupProp_defaults, hkey]
  | some content =>
    cases hp : parse content <;>
      simp [hp, lookupProp_applyRecognized, lookupProp_defaults, hkey]

theorem nodup_names_setProp (name : String) (value : JsValue)
    (props : List (String × JsValue)) (h : (props.map Prod.fst).Nodup) :
    ((setProp name value props).map Prod.fst).Nodup := by
  induction props with
  | nil => simp [setProp]
  | cons p rest ih =>
    obtain ⟨k, v⟩ := p
    have hrest : (rest.map Prod.fst).Nodup := (List.nodup_cons.mp h).2
    have hk : k ∉ rest.map Prod.fst := (List.nodup_cons.mp h).1
    by_cases hkn : k = name
    · subst hkn
      simpa [setProp] using h
    · simp only [setProp, hkn, if_false, List.map_cons]
      refine List.nodup_cons.mpr ⟨?_, ih hrest⟩
      intro hmem
      rcases (mem_names_setProp name k value rest).mp hmem with h1 | h1
      · exact hkn h1
      · exact hk h1

theorem nodup_names_foldl_setProp (headers : HeaderList) (props : List (String × JsValue))
    (h : (props.map Prod.fst).Nodup) :
    ((headers.foldl (fun ps header => setProp header.1 (JsValue.string header.2) ps)
        props).map Prod.fst).Nodup := by
  induction headers generalizing props with
  | nil => simpa using h
  | cons hd rest ih =>
    simp only [List.foldl_cons]
    exact ih _ (nodup_names_setProp _ _ _ h)

/-! ## The claims on the GET bridge -/

/-- C1: a call of `GET` fails synchronously (a script exception is thrown, no thread is started
and nothing happens afterwards, so the callback is never invoked) if the number of arguments is
not 3, or the string value of the first argument is empty, or the second argument is not an
object, or the third argument is not a function; in every other case the call returns
undefined and starts exactly one thread. -/
theorem GETCallback_validation (jsEngine : JsEngine) (arguments : List JsValue) :
    ((arguments.length ≠ 3
        ∨ (arguments.getD 0 JsValue.undefined).AsString = ""
        ∨ (arguments.getD 1 JsValue.undefined).IsObject = false
        ∨ (arguments.getD 2 JsValue.undefined).IsFunction = false) →
      (∃ what, (GETCallback arguments).returned = Except.error what)
        ∧ (GETCallback arguments).started = []
        ∧ GETEvents jsEngine arguments = [])
    ∧ (¬ (arguments.length ≠ 3
        ∨ (arguments.getD 0 JsValue.undefined).AsString = ""
        ∨ (arguments.getD 1 JsValue.undefined).IsObject = false
        ∨ (arguments.getD 2 JsValue.undefined).IsFunction = false) →
      (GETCallback arguments).returned = Except.ok JsValue.undefined
        ∧ ∃ thread, (GETCallback arguments).started = [thread]) := by
  by_cases hlen : arguments.length = 3
  · obtain ⟨a, b, c, rfl⟩ := length_three arguments hlen
    unfold GETEvents
    rw [GETCallback_three]
    by_cases h1 : a.AsString = ""
    · simp [h1]
    · by_cases h2 : b.IsObject = false
      · simp [h1, h2]
      · by_cases h3 : c.IsFunction = false
        · simp [h1, h2, h3]
        · simp [h1, h2, h3]
  · unfold GETEvents
    rw [GETCallback_count arguments hlen]
    simp [hlen]

/-- C1, witness: `GET("", {}, f)` throws and starts nothing; the sample call starts one thread. -/
theorem GETCallback_validation_witness :
    ((∃ what, (GETCallback [JsValue.string "", NewObject, sampleCallback]).returned
          = Except.error what)
        ∧ (GETCallback [JsValue.string "", NewObject, sampleCallback]).started = []
        ∧ GETEvents (sampleEngine true) [JsValue.string "", NewObject, sampleCallback] = [])
    ∧ ((GETCallback sampleArguments).returned = Except.ok JsValue.undefined
        ∧ ∃ thread, (GETCallback sampleArguments).started = [thread]) :=
  ⟨(GETCallback_validation (sampleEngine true)
      [JsValue.string "", NewObject, sampleCallback]).1 (by decide),
   (GETCallback_validation (sampleEngine true) sampleArguments).2 (by decide)⟩

/-- C2: for a validated request, when the connection-allowed check answers false, `Run` never
calls the requester and invokes the callback with a result object whose status is
`NS_ERROR_CONNECTION_REFUSED`, whose responseStatus is 0, whose responseText is empty and whose
responseHeaders is an object without properties. -/
theorem Run_connection_refused (jsEngine : JsEngine) (arguments : List JsValue)
    (thread : WebRequestThread) (hvalid : (GETCallback arguments).started = [thread])
    (hrefused : jsEngine.IsConnectionAllowed = false) :
    (∀ url headers, Event.webRequestGET url headers ∉ WebRequestThread.Run jsEngine thread)
    ∧ ∃ resultObject,
        WebRequestThread.Run jsEngine thread
          = [Event.call (arguments.getD 2 JsValue.undefined) [resultObject]]
        ∧ resultObject.GetProperty "status"
            = JsValue.number WebRequest.NS_ERROR_CONNECTION_REFUSED
        ∧ resultObject.GetProperty "responseStatus" = JsValue.number 0
        ∧ resultObject.GetProperty "responseText" = JsValue.string ""
        ∧ (resultObject.GetProperty "responseHeaders").IsObject = true
        ∧ (resultObject.GetProperty "responseHeaders").GetOwnPropertyNames = [] := by
  obtain ⟨a, b, c, rfl, -, -, -, rfl⟩ := GETCallback_started arguments thread hvalid
  rw [Run_eq]
  simp only [hrefused]
  refine ⟨by simp, resultObjectOf WebRequestThread.NotAllowedResponse, by simp, ?_⟩
  obtain ⟨f1, f2, f3, f4⟩ := resultObjectOf_fields WebRequestThread.NotAllowedResponse
  refine ⟨f1.trans (congrArg JsValue.number int64ToNumber_connection_refused), f2, f3, ?_, ?_⟩
  · rw [f4]; rfl
  · rw [f4]; rfl

/-- C2, witness: the sample call with connections refused. -/
theorem Run_connection_refused_witness :
    (GETCallback sampleArguments).started = [sampleThread]
    ∧ (sampleEngine false).IsConnectionAllowed = false
    ∧ (∀ url headers,
        Event.webRequestGET url headers ∉ WebRequestThread.Run (sampleEngine false) sampleThread)
    ∧ ∃ resultObject,
        WebRequestThread.Run (sampleEngine false) sampleThread
          = [Event.call (sampleArguments.getD 2 JsValue.undefined) [resultObject]]
        ∧ resultObject.GetProperty "status"
            = JsValue.number WebRequest.NS_ERROR_CONNECTION_REFUSED
        ∧ resultObject.GetProperty "responseStatus" = JsValue.number 0
        ∧ resultObject.GetProperty "responseText" = JsValue.string ""
        ∧ (resultObject.GetProperty "responseHeaders").IsObject = true
        ∧ (resultObject.GetProperty "responseHeaders").GetOwnPropertyNames = [] :=
  ⟨rfl, rfl, Run_connection_refused (sampleEngine false) sampleArguments sampleThread rfl rfl⟩

/-- C3: for a validated request with connections allowed, `Run` invokes the callback exactly
once, with exactly one argument; the responseHeaders object of that argument has one property
for every header name of the list the requester returned and no other, and the value of each
is the value of the last pair of the list that carries the name. -/
theorem Run_response_headers (jsEngine : JsEngine) (arguments : List JsValue)
    (thread : WebRequestThread) (hvalid : (GETCallback arguments).started = [thread])
    (hallowed : jsEngine.IsConnectionAllowed = true) :
    ∃ resultObject,
      (WebRequestThread.Run jsEngine thread).filter Event.isCall
          = [Event.call (arguments.getD 2 JsValue.undefined) [resultObject]]
      ∧ (resultObject.GetProperty "responseHeaders").GetOwnPropertyNames.Nodup
      ∧ (∀ name, name ∈ (resultObject.GetProperty "responseHeaders").GetOwnPropertyNames
          ↔ name ∈ (jsEngine.GetWebRequest.GET thread.url thread.headers).responseHeaders.map
              Prod.fst)
      ∧ (∀ name value,
          lastValue name (jsEngine.GetWebRequest.GET thread.url thread.headers).responseHeaders
            = some value →
          (resultObject.GetProperty "responseHeaders").GetProperty name
            = JsValue.string value) := by
  obtain ⟨a, b, c, rfl, -, -, -, rfl⟩ := GETCallback_started arguments thread hvalid
  rw [Run_eq]
  simp only [hallowed, if_true]
  refine ⟨resultObjectOf (jsEngine.GetWebRequest.GET a.AsString (collectHeaders b)),
    by simp [Event.isCall], ?_⟩
  rw [(resultObjectOf_fields _).2.2.2]
  refine ⟨?_, ?_, ?_⟩
  · exact nodup_names_foldl_setProp _ [] (by simp)
  · intro name
    have hmem := mem_names_foldl_setProp name
      (jsEngine.GetWebRequest.GET a.AsString (collectHeaders b)).responseHeaders []
    simpa [JsValue.GetOwnPropertyNames, JsValue.ownProperties] using hmem
  · intro name value hlast
    simp [JsValue.GetProperty, JsValue.ownProperties, lookupProp_foldl_setProp, hlast]

/-- C3, witness: the sample requester returns the headers Foo: 1, Bar: 2, Foo: 3; the last
value of Foo is 3. -/
theorem Run_response_headers_witness :
    (GETCallback sampleArguments).started = [sampleThread]
    ∧ (sampleEngine true).IsConnectionAllowed = true
    ∧ lastValue "Foo"
        ((sampleEngine true).GetWebRequest.GET sampleThread.url sampleThread.headers).responseHeaders
        = some "3"
    ∧ ∃ resultObject,
      (WebRequestThread.Run (sampleEngine true) sampleThread).filter Event.isCall
          = [Event.call (sampleArguments.getD 2 JsValue.undefined) [resultObject]]
      ∧ (resultObject.GetProperty "responseHeaders").GetOwnPropertyNames.Nodup
      ∧ (∀ name, name ∈ (resultObject.GetProperty "responseHeaders").GetOwnPropertyNames
          ↔ name ∈ ((sampleEngine true).GetWebRequest.GET sampleThread.url
              sampleThread.headers).responseHeaders.map Prod.fst)
      ∧ (∀ name value,
          lastValue name
              ((sampleEngine true).GetWebRequest.GET sampleThread.url
                sampleThread.headers).responseHeaders
            = some value →
          (resultObject.GetProperty "responseHeaders").GetProperty name
            = JsValue.string value) :=
  ⟨rfl, rfl, by decide,
    Run_response_headers (sampleEngine true) sampleArguments sampleThread rfl rfl⟩

/-- C4: the header list stored in the thread that `GET` starts is the sequence of the pairs
(name, string value of the property) over the own property names of the headers object, in the
order the names are enumerated, with exactly the pairs removed whose name is empty or whose
string value is empty. -/
theorem GETCallback_headers (arguments : List JsValue) (thread : WebRequestThread)
    (hvalid : (GETCallback arguments).started = [thread]) :
    thread.headers
      = ((arguments.getD 1 JsValue.undefined).GetOwnPropertyNames.map
          (fun name =>
            (name, ((arguments.getD 1 JsValue.undefined).GetProperty name).AsString))).filter
          (fun pair => decide (pair.1 ≠ "") && decide (pair.2 ≠ "")) := by
  obtain ⟨a, b, c, rfl, -, -, -, rfl⟩ := GETCallback_started arguments thread hvalid
  simp only [List.getD_cons_succ, List.getD_cons_zero]
  exact collectHeaders_eq b

/-- C4, witness: of the three sample headers the one with the empty value is dropped, the
number is stored as its string value. -/
theorem GETCallback_headers_witness :
    (GETCallback sampleArguments).started = [sampleThread]
    ∧ sampleThread.headers = [("Accept", "text/plain"), ("X-Count", "7")]
    ∧ sampleThread.headers
      = ((sampleArguments.getD 1 JsValue.undefined).GetOwnPropertyNames.map
          (fun name =>
            (name, ((sampleArguments.getD 1 JsValue.undefined).GetProperty name).AsString))).filter
          (fun pair => decide (pair.1 ≠ "") && decide (pair.2 ≠ "")) :=
  ⟨rfl, rfl, GETCallback_headers sampleArguments sampleThread rfl⟩

/-- C5, counterexample: `GET(5, {}, function () {})`, whose first argument is a number and no
string, does not fail: it returns undefined and starts a thread for the URL `5`. -/
theorem GETCallback_number_url :
    (JsValue.number 5).IsString = false
    ∧ NewObject.IsObject = true
    ∧ sampleCallback.IsFunction = true
    ∧ (GETCallback [JsValue.number 5, NewObject, sampleCallback]).returned
        = Except.ok JsValue.undefined
    ∧ (GETCallback [JsValue.number 5, NewObject, sampleCallback]).started
        = [{ url := "5", headers := [], callback := sampleCallback }] :=
  ⟨rfl, rfl, rfl, rfl, rfl⟩

/-- C5, amended: for a call of `GET` with three arguments whose first argument is not a string
value, the first argument is coerced to its string value. The call throws and starts no thread
if that string value is empty, the second argument is not an object or the third is not a
function; otherwise it returns undefined and starts one thread whose URL is the coerced
string. -/
theorem GETCallback_url_coerced (a b c : JsValue) (hnot : a.IsString = false) :
    ((a.AsString = "" ∨ b.IsObject = false ∨ c.IsFunction = false) →
      (∃ what, (GETCallback [a, b, c]).returned = Except.error what)
        ∧ (GETCallback [a, b, c]).started = [])
    ∧ (¬ (a.AsString = "" ∨ b.IsObject = false ∨ c.IsFunction = false) →
      (GETCallback [a, b, c]).returned = Except.ok JsValue.undefined
        ∧ (GETCallback [a, b, c]).started
            = [{ url := a.AsString, headers := collectHeaders b, callback := c }]) := by
  have _ := hnot
  rw [GETCallback_three]
  by_cases h1 : a.AsString = ""
  · simp [h1]
  · by_cases h2 : b.IsObject = false
    · simp [h1, h2]
    · by_cases h3 : c.IsFunction = false
      · simp [h1, h2, h3]
      · simp [h1, h2, h3]

/-- C5, witness: an array without elements coerces to the empty string and is rejected; the
boolean true is accepted as the URL `true`. -/
theorem GETCallback_url_coerced_witness :
    ((∃ what, (GETCallback [JsValue.object "" [], NewObject, sampleCallback]).returned
          = Except.error what)
        ∧ (GETCallback [JsValue.object "" [], NewObject, sampleCallback]).started = [])
    ∧ ((GETCallback [JsValue.bool true, NewObject, sampleCallback]).returned
            = Except.ok JsValue.undefined
        ∧ (GETCallback [JsValue.bool true, NewObject, sampleCallback]).started
            = [{ url := (JsValue.bool true).AsString, headers := collectHeaders NewObject,
                 callback := sampleCallback }]) :=
  ⟨(GETCallback_url_coerced (JsValue.object "" []) NewObject sampleCallback rfl).1 (by decide),
   (GETCallback_url_coerced (JsValue.bool true) NewObject sampleCallback rfl).2 (by decide)⟩

/-- C10, counterexample: the requester answers with the status 2^53 + 1 =
9007199254740993; the status property of the object handed to the callback is
9007199254740992, not the field of the response. -/
theorem Run_status_rounded :
    (GETCallback sampleArguments).started = [sampleThread]
    ∧ largeStatusEngine.IsConnectionAllowed = true
    ∧ (largeStatusEngine.GetWebRequest.GET sampleThread.url sampleThread.headers).status
        = 9007199254740993
    ∧ WebRequestThread.Run largeStatusEngine sampleThread
        = [Event.webRequestGET sampleThread.url sampleThread.headers,
           Event.call sampleThread.callback
            [JsValue.object "[object Object]"
              [("status", JsValue.number 9007199254740992),
               ("responseStatus", JsValue.number 200),
               ("responseText", JsValue.string ""),
               ("responseHeaders", JsValue.object "[object Object]" [])]]]
    ∧ (JsValue.object "[object Object]"
          [("status", JsValue.number 9007199254740992),
           ("responseStatus", JsValue.number 200),
           ("responseText", JsValue.string ""),
           ("responseHeaders", JsValue.object "[object Object]" [])]).GetProperty "status"
        ≠ JsValue.number
            (largeStatusEngine.GetWebRequest.GET sampleThread.url sampleThread.headers).status := by
  refine ⟨rfl, rfl, rfl, rfl, ?_⟩
  intro h
  have hnum : (9007199254740992 : Int) = 9007199254740993 := JsValue.number.inj h
  exact absurd hnum (by decide)

/-- C10, amended: for a validated request with connections allowed, `Run` calls the requester
exactly once, with the validated URL and the validated header list; the properties
responseStatus and responseText of the object handed to the callback are the fields of the
response that call returned, and the property status is the script number the 64-bit status
of that response converts to (the nearest double), which is the status itself whenever its
absolute value is at most 2^53. -/
theorem Run_performs_request (jsEngine : JsEngine) (arguments : List JsValue)
    (thread : WebRequestThread) (hvalid : (GETCallback arguments).started = [thread])
    (hallowed : jsEngine.IsConnectionAllowed = true) :
    thread.url = (arguments.getD 0 JsValue.undefined).AsString
    ∧ thread.headers = collectHeaders (arguments.getD 1 JsValue.undefined)
    ∧ thread.callback = arguments.getD 2 JsValue.undefined
    ∧ ∃ resultObject,
        WebRequestThread.Run jsEngine thread
          = [Event.webRequestGET thread.url thread.headers,
             Event.call thread.callback [resultObject]]
        ∧ resultObject.GetProperty "status"
            = JsValue.number
                (int64ToNumber (jsEngine.GetWebRequest.GET thread.url thread.headers).status)
        ∧ (-(2 ^ 53) ≤ (jsEngine.GetWebRequest.GET thread.url thread.headers).status
            ∧ (jsEngine.GetWebRequest.GET thread.url thread.headers).status ≤ 2 ^ 53 →
          resultObject.GetProperty "status"
            = JsValue.number (jsEngine.GetWebRequest.GET thread.url thread.headers).status)
        ∧ resultObject.GetProperty "responseStatus"
            = JsValue.number (jsEngine.GetWebRequest.GET thread.url thread.headers).responseStatus
        ∧ resultObject.GetProperty "responseText"
            = JsValue.string (jsEngine.GetWebRequest.GET thread.url thread.headers).responseText := by
  obtain ⟨a, b, c, rfl, -, -, -, rfl⟩ := GETCallback_started arguments thread hvalid
  rw [Run_eq]
  simp only [hallowed, if_true]
  refine ⟨rfl, rfl, rfl, resultObjectOf _, rfl, ?_⟩
  obtain ⟨f1, f2, f3, -⟩ :=
    resultObjectOf_fields (jsEngine.GetWebRequest.GET a.AsString (collectHeaders b))
  refine ⟨f1, ?_, f2, f3⟩
  intro hrange
  rw [f1, int64ToNumber_exact _ hrange.1 hrange.2]

/-- C10, witness: the sample call with connections allowed; the status 0 of the sample
response is handed over unchanged. -/
theorem Run_performs_request_witness :
    (GETCallback sampleArguments).started = [sampleThread]
    ∧ (sampleEngine true).IsConnectionAllowed = true
    ∧ ∃ resultObject,
        WebRequestThread.Run (sampleEngine true) sampleThread
          = [Event.webRequestGET sampleThread.url sampleThread.headers,
             Event.call sampleThread.callback [resultObject]]
        ∧ resultObject.GetProperty "status" = JsValue.number 0
        ∧ resultObject.GetProperty "responseStatus" = JsValue.number 200
        ∧ resultObject.GetProperty "responseText" = JsValue.string "ok" :=
  ⟨rfl, rfl,
    match Run_performs_request (sampleEngine true) sampleArguments sampleThread rfl rfl with
    | ⟨_, _, _, resultObject, hrun, _, hstatus, hresponse, htext⟩ =>
      ⟨resultObject, hrun, hstatus (by decide), hresponse, htext⟩⟩

/-! ## The claims on the preference store -/

/-- C6: for a recognized key and a value whose type differs from the declared type of the key,
`SetPref` fails with an exception and `GetPref` of the key returns afterwards what it returned
before the call. -/
theorem SetPref_type_mismatch (filterEngine : FilterEngine) (key : String) (decl : PrefDecl)
    (value : JsValue) (hkey : findDecl key filterEngine.recognized = some decl)
    (htype : value.hasType decl.type = false) :
    (∃ what, (filterEngine.SetPref key value).2 = Except.error what)
    ∧ (filterEngine.SetPref key value).1.GetPref key = filterEngine.GetPref key := by
  simp [FilterEngine.SetPref, hkey, htype]

/-- C6, witness: the three calls of `PrefsGetSet` that must throw (`test/Prefs.cpp`, lines
106-108), on the store with the tested defaults. -/
theorem SetPref_type_mismatch_witness :
    ((∃ what,
        ((FilterEngine.Create testedPrefs [] none testedParse).SetPref "patternsfile"
          (JsValue.number 0)).2 = Except.error what)
      ∧ ((FilterEngine.Create testedPrefs [] none testedParse).SetPref "patternsfile"
          (JsValue.number 0)).1.GetPref "patternsfile"
        = (FilterEngine.Create testedPrefs [] none testedParse).GetPref "patternsfile")
    ∧ ((∃ what,
        ((FilterEngine.Create testedPrefs [] none testedParse).SetPref "patternsbackupinterval"
          (JsValue.bool true)).2 = Except.error what)
      ∧ ((FilterEngine.Create testedPrefs [] none testedParse).SetPref "patternsbackupinterval"
          (JsValue.bool true)).1.GetPref "patternsbackupinterval"
        = (FilterEngine.Create testedPrefs [] none testedParse).GetPref "patternsbackupinterval")
    ∧ ((∃ what,
        ((FilterEngine.Create testedPrefs [] none testedParse).SetPref "subscriptions_autoupdate"
          (JsValue.string "foo")).2 = Except.error what)
      ∧ ((FilterEngine.Create testedPrefs [] none testedParse).SetPref "subscriptions_autoupdate"
          (JsValue.string "foo")).1.GetPref "subscriptions_autoupdate"
        = (FilterEngine.Create testedPrefs [] none testedParse).GetPref
            "subscriptions_autoupdate") :=
  ⟨SetPref_type_mismatch (FilterEngine.Create testedPrefs [] none testedParse) "patternsfile"
      { key := "patternsfile", type := PrefType.string, default := JsValue.string "patterns.ini" }
      (JsValue.number 0) rfl rfl,
   SetPref_type_mismatch (FilterEngine.Create testedPrefs [] none testedParse)
      "patternsbackupinterval"
      { key := "patternsbackupinterval", type := PrefType.number, default := JsValue.number 24 }
      (JsValue.bool true) rfl rfl,
   SetPref_type_mismatch (FilterEngine.Create testedPrefs [] none testedParse)
      "subscriptions_autoupdate"
      { key := "subscriptions_autoupdate", type := PrefType.bool, default := JsValue.bool true }
      (JsValue.string "foo") rfl rfl⟩

/-- C7: for a recognized key and a value of the declared type of the key, `SetPref` succeeds
and a `GetPref` of the key right after it returns the value. -/
theorem SetPref_GetPref (filterEngine : FilterEngine) (key : String) (decl : PrefDecl)
    (value : JsValue) (hkey : findDecl key filterEngine.recognized = some decl)
    (htype : value.hasType decl.type = true) :
    (filterEngine.SetPref key value).2 = Except.ok ()
    ∧ (filterEngine.SetPref key value).1.GetPref key = value := by
  simp [FilterEngine.SetPref, FilterEngine.GetPref, hkey, htype, lookupProp_setProp]

/-- C7, witness: the three calls of `PrefsGetSet` that succeed and are read back
(`test/Prefs.cpp`, lines 110-116). -/
theorem SetPref_GetPref_witness :
    (((FilterEngine.Create testedPrefs [] none testedParse).SetPref "patternsfile"
          (JsValue.string "filters.ini")).2 = Except.ok ()
      ∧ ((FilterEngine.Create testedPrefs [] none testedParse).SetPref "patternsfile"
          (JsValue.string "filters.ini")).1.GetPref "patternsfile" = JsValue.string "filters.ini")
    ∧ (((FilterEngine.Create testedPrefs [] none testedParse).SetPref "patternsbackupinterval"
          (JsValue.number 48)).2 = Except.ok ()
      ∧ ((FilterEngine.Create testedPrefs [] none testedParse).SetPref "patternsbackupinterval"
          (JsValue.number 48)).1.GetPref "patternsbackupinterval" = JsValue.number 48)
    ∧ (((FilterEngine.Create testedPrefs [] none testedParse).SetPref "subscriptions_autoupdate"
          (JsValue.bool false)).2 = Except.ok ()
      ∧ ((FilterEngine.Create testedPrefs [] none testedParse).SetPref "subscriptions_autoupdate"
          (JsValue.bool false)).1.GetPref "subscriptions_autoupdate" = JsValue.bool false) :=
  ⟨SetPref_GetPref (FilterEngine.Create testedPrefs [] none testedParse) "patternsfile"
      { key := "patternsfile", type := PrefType.string, default := JsValue.string "patterns.ini" }
      (JsValue.string "filters.ini") rfl rfl,
   SetPref_GetPref (FilterEngine.Create testedPrefs [] none testedParse)
      "patternsbackupinterval"
      { key := "patternsbackupinterval", type := PrefType.number, default := JsValue.number 24 }
      (JsValue.number 48) rfl rfl,
   SetPref_GetPref (FilterEngine.Create testedPrefs [] none testedParse)
      "subscriptions_autoupdate"
      { key := "subscriptions_autoupdate", type := PrefType.bool, default := JsValue.bool true }
      (JsValue.bool false) rfl rfl⟩

/-- C8: on a freshly created store, `GetPref` of a recognized key returns the persisted value
of the key when the persisted document parses and contains the key; otherwise the preconfigured
value of the key when one was supplied; otherwise the built-in default of the key. In
particular a document that fails to parse contributes no value. -/
theorem Create_GetPref_precedence (recognized : List PrefDecl)
    (preconfiguredPrefs : FilterEngine.Prefs) (persisted : Option String)
    (parse : String → Option (List (String × JsValue))) (key : String) (decl : PrefDecl)
    (hkey : findDecl key recognized = some decl) :
    (FilterEngine.Create recognized preconfiguredPrefs persisted parse).GetPref key
      = (match (persisted.bind parse).bind (lastValue key) with
        | some value => value
        | none =>
          match lastValue key preconfiguredPrefs with
          | some value => value
          | none => decl.default)
    ∧ (∀ content, persisted = some content → parse content = none →
        (FilterEngine.Create recognized preconfiguredPrefs persisted parse).GetPref key
          = (lastValue key preconfiguredPrefs).getD decl.default) := by
  have hmain := Create_recognized recognized preconfiguredPrefs persisted parse key decl hkey
  refine ⟨hmain, ?_⟩
  intro content hcontent hparse
  rw [hmain, hcontent]
  simp only [Option.bind, hparse]
  cases lastValue key preconfiguredPrefs <;> rfl

/-- C8, witness: the document of `UnknownPrefs` overrides a preconfigured value of
patternsbackupinterval with 12; the malformed document of `SyntaxFailure` contributes
nothing, so that the preconfigured value 36 (and without it the default 24, line 157) is
returned. -/
theorem Create_GetPref_precedence_witness :
    (FilterEngine.Create testedPrefs [("patternsbackupinterval", JsValue.number 36)]
        (some unknownPrefsContents) testedParse).GetPref
      "patternsbackupinterval" = JsValue.number 12
    ∧ (FilterEngine.Create testedPrefs [("patternsbackupinterval", JsValue.number 36)]
        (some syntaxFailureContents) testedParse).GetPref
      "patternsbackupinterval" = JsValue.number 36
    ∧ (FilterEngine.Create testedPrefs []
        (some syntaxFailureContents) testedParse).GetPref
      "patternsbackupinterval" = JsValue.number 24 :=
  ⟨(Create_GetPref_precedence testedPrefs [("patternsbackupinterval", JsValue.number 36)]
      (some unknownPrefsContents) testedParse
      "patternsbackupinterval"
      { key := "patternsbackupinterval", type := PrefType.number, default := JsValue.number 24 }
      rfl).1,
   (Create_GetPref_precedence testedPrefs [("patternsbackupinterval", JsValue.number 36)]
      (some syntaxFailureContents) testedParse
      "patternsbackupinterval"
      { key := "patternsbackupinterval", type := PrefType.number, default := JsValue.number 24 }
      rfl).2 syntaxFailureContents rfl rfl,
   (Create_GetPref_precedence testedPrefs []
      (some syntaxFailureContents) testedParse
      "patternsbackupinterval"
      { key := "patternsbackupinterval", type := PrefType.number, default := JsValue.number 24 }
      rfl).2 syntaxFailureContents rfl rfl⟩

/-- C9: on a freshly created store, `GetPref` of a key that is not recognized returns
undefined, also when the key is in the preconfigured mapping or in a well-formed persisted
document; the recognized keys of that document are loaded all the same. -/
theorem Create_GetPref_unknown (recognized : List PrefDecl)
    (preconfiguredPrefs : FilterEngine.Prefs) (persisted : Option String)
    (parse : String → Option (List (String × JsValue))) (key : String)
    (hkey : findDecl key recognized = none) :
    (FilterEngine.Create recognized preconfiguredPrefs persisted parse).GetPref key
      = JsValue.undefined
    ∧ (∀ content document other decl value,
        persisted = some content → parse content = some document →
        findDecl other recognized = some decl → lastValue other document = some value →
        (FilterEngine.Create recognized preconfiguredPrefs persisted parse).GetPref other
          = value) := by
  refine ⟨Create_unrecognized recognized preconfiguredPrefs persisted parse key hkey, ?_⟩
  intro content document other decl value hcontent hparse hother hvalue
  rw [Create_recognized recognized preconfiguredPrefs persisted parse other decl hother, hcontent]
  simp [Option.bind, hparse, hvalue]

/-- C9, witness: `UnknownPrefs` and `PreconfiguredPrefsUnsupported` (`test/Prefs.cpp`, lines
144-150 and 173-180): foobar stays undefined although the document and the preconfigured
mapping contain it, and patternsbackupinterval is loaded as 12. -/
theorem Create_GetPref_unknown_witness :
    (FilterEngine.Create testedPrefs [("foobar", JsValue.bool true)]
        (some unknownPrefsContents) testedParse).GetPref "foobar"
      = JsValue.undefined
    ∧ (FilterEngine.Create testedPrefs [("foobar", JsValue.bool true)]
        (some unknownPrefsContents) testedParse).GetPref
      "patternsbackupinterval" = JsValue.number 12 :=
  ⟨(Create_GetPref_unknown testedPrefs [("foobar", JsValue.bool true)]
      (some unknownPrefsContents) testedParse "foobar" rfl).1,
   (Create_GetPref_unknown testedPrefs [("foobar", JsValue.bool true)]
      (some unknownPrefsContents) testedParse "foobar" rfl).2
      unknownPrefsContents
      [("foobar", JsValue.number 2), ("patternsbackupinterval", JsValue.number 12)]
      "patternsbackupinterval"
      { key := "patternsbackupinterval", type := PrefType.number, default := JsValue.number 24 }
      (JsValue.number 12) rfl rfl rfl rfl⟩

end AdblockPlus
